import Mathlib

/-
Verification of the 3D-Tiles coordinate-transform and LOD subsystem of the
my-3d-geo-apps repository.

The development shallowly embeds the two custom-layer variants found in the
source:

* `SplitLayer`  — the camera-relative ("split matrix") variant
  (src/unnamed/part_002): vertical scale 1.0, frustum-culling disable,
  per-frame precision split of the ECEF-to-Mercator pipeline.
* `WeldLayer`   — the vertex-welding variant
  (src/app/utils/threeDTilesLayer.ts): worldSize-scaled vertical axis,
  vertex welding and normal recomputation, polygon offset.
* `GeoUtils`    — the Web-Mercator helper module (src/app/utils/geoUtils.ts).
* `Spec`        — the normalized Mercator formulas exactly as the
  specification states them (used for refinement comparisons only).

Three.js matrices are 16-element structures and all matrix arithmetic in the
source is elementwise on those 16 numbers; the embedding mirrors that with a
16-field structure `Mat4` (fields named like the row-major arguments of
Three.js `Matrix4.set`; the column-major element indices 12 and 13 touched by
the render loop correspond to fields `n14` and `n24`).

JavaScript numbers are modelled by real numbers; the Float32 truncation used
only by the console diagnostic `debugFloat32Precision` has no counterpart in
this embedding.
-/

open Real

noncomputable section

namespace ThreeDTiles

/-- A 3-component vector, standing in for both Three.js `Vector3` and the
`[number, number, number]` triples returned by `lngLatToECEF`. -/
@[ext]
structure Vec3 where
  x : ℝ
  y : ℝ
  z : ℝ

/-- A 4x4 matrix as Three.js stores it: sixteen scalars.  Field `nRC` is the
entry in row R, column C, matching the argument order of `Matrix4.set`.
Column-major `elements[12]` and `elements[13]` are `n14` and `n24`. -/
@[ext]
structure Mat4 where
  n11 : ℝ
  n12 : ℝ
  n13 : ℝ
  n14 : ℝ
  n21 : ℝ
  n22 : ℝ
  n23 : ℝ
  n24 : ℝ
  n31 : ℝ
  n32 : ℝ
  n33 : ℝ
  n34 : ℝ
  n41 : ℝ
  n42 : ℝ
  n43 : ℝ
  n44 : ℝ

/-- The identity matrix (`new THREE.Matrix4()`). -/
def identityMat4 : Mat4 := ⟨1, 0, 0, 0, 0, 1, 0, 0, 0, 0, 1, 0, 0, 0, 0, 1⟩

/-- Three.js `Matrix4.multiplyMatrices(A, B)`: the product `A × B`, written
out elementwise exactly as the library computes it. -/
def matMul (A B : Mat4) : Mat4 :=
  ⟨A.n11 * B.n11 + A.n12 * B.n21 + A.n13 * B.n31 + A.n14 * B.n41,
   A.n11 * B.n12 + A.n12 * B.n22 + A.n13 * B.n32 + A.n14 * B.n42,
   A.n11 * B.n13 + A.n12 * B.n23 + A.n13 * B.n33 + A.n14 * B.n43,
   A.n11 * B.n14 + A.n12 * B.n24 + A.n13 * B.n34 + A.n14 * B.n44,
   A.n21 * B.n11 + A.n22 * B.n21 + A.n23 * B.n31 + A.n24 * B.n41,
   A.n21 * B.n12 + A.n22 * B.n22 + A.n23 * B.n32 + A.n24 * B.n42,
   A.n21 * B.n13 + A.n22 * B.n23 + A.n23 * B.n33 + A.n24 * B.n43,
   A.n21 * B.n14 + A.n22 * B.n24 + A.n23 * B.n34 + A.n24 * B.n44,
   A.n31 * B.n11 + A.n32 * B.n21 + A.n33 * B.n31 + A.n34 * B.n41,
   A.n31 * B.n12 + A.n32 * B.n22 + A.n33 * B.n32 + A.n34 * B.n42,
   A.n31 * B.n13 + A.n32 * B.n23 + A.n33 * B.n33 + A.n34 * B.n43,
   A.n31 * B.n14 + A.n32 * B.n24 + A.n33 * B.n34 + A.n34 * B.n44,
   A.n41 * B.n11 + A.n42 * B.n21 + A.n43 * B.n31 + A.n44 * B.n41,
   A.n41 * B.n12 + A.n42 * B.n22 + A.n43 * B.n32 + A.n44 * B.n42,
   A.n41 * B.n13 + A.n42 * B.n23 + A.n43 * B.n33 + A.n44 * B.n43,
   A.n41 * B.n14 + A.n42 * B.n24 + A.n43 * B.n34 + A.n44 * B.n44⟩

/-- Applying a matrix to a point, as `new THREE.Vector4(x, y, z, 1)
.applyMatrix4(M)` does in the validation code; the matrices involved have
bottom row (0, 0, 0, 1), so the w component stays 1 and only x, y, z matter. -/
def applyToPoint (M : Mat4) (v : Vec3) : Vec3 :=
  ⟨M.n11 * v.x + M.n12 * v.y + M.n13 * v.z + M.n14,
   M.n21 * v.x + M.n22 * v.y + M.n23 * v.z + M.n24,
   M.n31 * v.x + M.n32 * v.y + M.n33 * v.z + M.n34⟩

/-- Three.js `Matrix4.makeTranslation(tx, ty, tz)`. -/
def makeTranslation (tx ty tz : ℝ) : Mat4 :=
  ⟨1, 0, 0, tx, 0, 1, 0, ty, 0, 0, 1, tz, 0, 0, 0, 1⟩

/-- Three.js `Matrix4.invert()`: the classical-adjoint inverse, written
elementwise as in the library.  When the determinant is zero the library
returns the zero matrix; here `detInv = 1 / 0 = 0` in Lean's reals, which
yields the zero matrix as well. -/
def invertMat4 (M : Mat4) : Mat4 :=
  let t11 := M.n23 * M.n34 * M.n42 - M.n24 * M.n33 * M.n42 + M.n24 * M.n32 * M.n43
    - M.n22 * M.n34 * M.n43 - M.n23 * M.n32 * M.n44 + M.n22 * M.n33 * M.n44
  let t12 := M.n14 * M.n33 * M.n42 - M.n13 * M.n34 * M.n42 - M.n14 * M.n32 * M.n43
    + M.n12 * M.n34 * M.n43 + M.n13 * M.n32 * M.n44 - M.n12 * M.n33 * M.n44
  let t13 := M.n13 * M.n24 * M.n42 - M.n14 * M.n23 * M.n42 + M.n14 * M.n22 * M.n43
    - M.n12 * M.n24 * M.n43 - M.n13 * M.n22 * M.n44 + M.n12 * M.n23 * M.n44
  let t14 := M.n14 * M.n23 * M.n32 - M.n13 * M.n24 * M.n32 - M.n14 * M.n22 * M.n33
    + M.n12 * M.n24 * M.n33 + M.n13 * M.n22 * M.n34 - M.n12 * M.n23 * M.n34
  let det := M.n11 * t11 + M.n21 * t12 + M.n31 * t13 + M.n41 * t14
  let detInv := 1 / det
  { n11 := t11 * detInv
    n12 := t12 * detInv
    n13 := t13 * detInv
    n14 := t14 * detInv
    n21 := (M.n24 * M.n33 * M.n41 - M.n23 * M.n34 * M.n41 - M.n24 * M.n31 * M.n43
      + M.n21 * M.n34 * M.n43 + M.n23 * M.n31 * M.n44 - M.n21 * M.n33 * M.n44) * detInv
    n22 := (M.n13 * M.n34 * M.n41 - M.n14 * M.n33 * M.n41 + M.n14 * M.n31 * M.n43
      - M.n11 * M.n34 * M.n43 - M.n13 * M.n31 * M.n44 + M.n11 * M.n33 * M.n44) * detInv
    n23 := (M.n14 * M.n23 * M.n41 - M.n13 * M.n24 * M.n41 - M.n14 * M.n21 * M.n43
      + M.n11 * M.n24 * M.n43 + M.n13 * M.n21 * M.n44 - M.n11 * M.n23 * M.n44) * detInv
    n24 := (M.n13 * M.n24 * M.n31 - M.n14 * M.n23 * M.n31 + M.n14 * M.n21 * M.n33
      - M.n11 * M.n24 * M.n33 - M.n13 * M.n21 * M.n34 + M.n11 * M.n23 * M.n34) * detInv
    n31 := (M.n22 * M.n34 * M.n41 - M.n24 * M.n32 * M.n41 + M.n24 * M.n31 * M.n42
      - M.n21 * M.n34 * M.n42 - M.n22 * M.n31 * M.n44 + M.n21 * M.n32 * M.n44) * detInv
    n32 := (M.n14 * M.n32 * M.n41 - M.n12 * M.n34 * M.n41 - M.n14 * M.n31 * M.n42
      + M.n11 * M.n34 * M.n42 + M.n12 * M.n31 * M.n44 - M.n11 * M.n32 * M.n44) * detInv
    n33 := (M.n12 * M.n24 * M.n41 - M.n14 * M.n22 * M.n41 + M.n14 * M.n21 * M.n42
      - M.n11 * M.n24 * M.n42 - M.n12 * M.n21 * M.n44 + M.n11 * M.n22 * M.n44) * detInv
    n34 := (M.n14 * M.n22 * M.n31 - M.n12 * M.n24 * M.n31 - M.n14 * M.n21 * M.n32
      + M.n11 * M.n24 * M.n32 + M.n12 * M.n21 * M.n34 - M.n11 * M.n22 * M.n34) * detInv
    n41 := (M.n23 * M.n32 * M.n41 - M.n22 * M.n33 * M.n41 - M.n23 * M.n31 * M.n42
      + M.n21 * M.n33 * M.n42 + M.n22 * M.n31 * M.n43 - M.n21 * M.n32 * M.n43) * detInv
    n42 := (M.n12 * M.n33 * M.n41 - M.n13 * M.n32 * M.n41 + M.n13 * M.n31 * M.n42
      - M.n11 * M.n33 * M.n42 - M.n12 * M.n31 * M.n43 + M.n11 * M.n32 * M.n43) * detInv
    n43 := (M.n13 * M.n22 * M.n41 - M.n12 * M.n23 * M.n41 - M.n13 * M.n21 * M.n42
      + M.n11 * M.n23 * M.n42 + M.n12 * M.n21 * M.n43 - M.n11 * M.n22 * M.n43) * detInv
    n44 := (M.n12 * M.n23 * M.n31 - M.n13 * M.n22 * M.n31 + M.n13 * M.n21 * M.n32
      - M.n11 * M.n23 * M.n32 - M.n12 * M.n21 * M.n33 + M.n11 * M.n22 * M.n33) * detInv }

namespace Spec

/-- Normalized Web-Mercator X as the specification section 4.1 writes it:
`mercatorX(lng) = (lng + 180) / 360`.  Used only to compare the code's
Mercator call sites against the specification's formulas. -/
def mercatorX (lng : ℝ) : ℝ := (lng + 180) / 360

/-- Normalized Web-Mercator Y as the specification section 4.1 writes it:
`mercatorY(lat) = (1 - ln(tan(pi/4 + lat*pi/360)) / pi) / 2`. -/
def mercatorY (lat : ℝ) : ℝ :=
  (1 - Real.log (Real.tan (π / 4 + lat * π / 360)) / π) / 2

end Spec

namespace SplitLayer

/-- Geo constant from src/unnamed/part_002. -/
def EARTH_CIRCUMFERENCE : ℝ := 40075016.686

/-- WGS84 semi-major axis from src/unnamed/part_002. -/
def WGS84_A : ℝ := 6378137.0

/-- WGS84 eccentricity squared from src/unnamed/part_002. -/
def WGS84_E2 : ℝ := 0.00669437999014

/-- `lngLatToECEF` of src/unnamed/part_002: WGS84 geodetic to ECEF. -/
def lngLatToECEF (lng lat : ℝ) (alt : ℝ := 0) : Vec3 :=
  let lam := lng * π / 180
  let phi := lat * π / 180
  let sinphi := Real.sin phi
  let cosphi := Real.cos phi
  let N := WGS84_A / Real.sqrt (1 - WGS84_E2 * sinphi * sinphi)
  ⟨(N + alt) * cosphi * Real.cos lam,
   (N + alt) * cosphi * Real.sin lam,
   (N * (1 - WGS84_E2) + alt) * sinphi⟩

/-- `buildEcefToMercatorMatrix` of src/unnamed/part_002 (the corrected
variant): ENU basis at the anchor, horizontal scale
`sH = worldSize / (EARTH_CIRCUMFERENCE * cos phi)`, vertical scale 1.0,
translation solved so the anchor maps to
(mx0 * worldSize, my0 * worldSize, altitudeOffset). -/
def buildEcefToMercatorMatrix (lng0 lat0 : ℝ) (altitudeOffset : ℝ := 0)
    (worldSize : ℝ := 1) : Mat4 :=
  let lam := lng0 * π / 180
  let phi := lat0 * π / 180
  let sinlam := Real.sin lam
  let coslam := Real.cos lam
  let sinphi := Real.sin phi
  let cosphi := Real.cos phi
  let Ex := -sinlam
  let Ey := coslam
  let Ez := (0 : ℝ)
  let Nx := -sinphi * coslam
  let Ny := -sinphi * sinlam
  let Nz := cosphi
  let Ux := cosphi * coslam
  let Uy := cosphi * sinlam
  let Uz := sinphi
  let sH := worldSize / (EARTH_CIRCUMFERENCE * cosphi)
  let C := lngLatToECEF lng0 lat0 0
  let mx0 := (lng0 + 180) / 360
  let my0 := (1 - Real.log (Real.tan (π / 4 + lat0 * π / 360)) / π) / 2
  let tx := mx0 * worldSize - sH * (Ex * C.x + Ey * C.y + Ez * C.z)
  let ty := my0 * worldSize + sH * (Nx * C.x + Ny * C.y + Nz * C.z)
  let tz := -(Ux * C.x + Uy * C.y + Uz * C.z) + altitudeOffset
  ⟨sH * Ex, sH * Ey, sH * Ez, tx,
   -(sH * Nx), -(sH * Ny), -(sH * Nz), ty,
   Ux, Uy, Uz, tz,
   0, 0, 0, 1⟩

/-- The render loop's `ecefToMercRel`: a clone of the ECEF-to-Mercator
matrix whose column-major elements 12 and 13 (fields n14 and n24, the X and
Y translation components) have the camera's Mercator position subtracted. -/
def subtractCameraXY (M : Mat4) (camMercX camMercY : ℝ) : Mat4 :=
  { M with n14 := M.n14 - camMercX, n24 := M.n24 - camMercY }

end SplitLayer

namespace WeldLayer

/-- Geo constant from src/app/utils/threeDTilesLayer.ts. -/
def EARTH_CIRCUMFERENCE : ℝ := 40075016.686

/-- WGS84 semi-major axis from src/app/utils/threeDTilesLayer.ts. -/
def WGS84_A : ℝ := 6378137.0

/-- WGS84 eccentricity squared from src/app/utils/threeDTilesLayer.ts. -/
def WGS84_E2 : ℝ := 0.00669437999014

/-- `lngLatToECEF` of src/app/utils/threeDTilesLayer.ts. -/
def lngLatToECEF (lng lat : ℝ) (alt : ℝ := 0) : Vec3 :=
  let lam := lng * π / 180
  let phi := lat * π / 180
  let sinphi := Real.sin phi
  let cosphi := Real.cos phi
  let N := WGS84_A / Real.sqrt (1 - WGS84_E2 * sinphi * sinphi)
  ⟨(N + alt) * cosphi * Real.cos lam,
   (N + alt) * cosphi * Real.sin lam,
   (N * (1 - WGS84_E2) + alt) * sinphi⟩

/-- `buildEcefToMercatorMatrix` of src/app/utils/threeDTilesLayer.ts (the
welding variant): identical to the split variant except that the third row
and its translation are scaled by `sV = worldSize / EARTH_CIRCUMFERENCE`,
and the altitude offset is likewise multiplied by `sV`. -/
def buildEcefToMercatorMatrix (lng0 lat0 : ℝ) (altitudeOffset : ℝ := 0)
    (worldSize : ℝ := 1) : Mat4 :=
  let lam := lng0 * π / 180
  let phi := lat0 * π / 180
  let sinlam := Real.sin lam
  let coslam := Real.cos lam
  let sinphi := Real.sin phi
  let cosphi := Real.cos phi
  let Ex := -sinlam
  let Ey := coslam
  let Ez := (0 : ℝ)
  let Nx := -sinphi * coslam
  let Ny := -sinphi * sinlam
  let Nz := cosphi
  let Ux := cosphi * coslam
  let Uy := cosphi * sinlam
  let Uz := sinphi
  let sH := worldSize / (EARTH_CIRCUMFERENCE * cosphi)
  let sV := worldSize / EARTH_CIRCUMFERENCE
  let C := lngLatToECEF lng0 lat0 0
  let mx0 := (lng0 + 180) / 360
  let my0 := (1 - Real.log (Real.tan (π / 4 + lat0 * π / 360)) / π) / 2
  let tx := mx0 * worldSize - sH * (Ex * C.x + Ey * C.y + Ez * C.z)
  let ty := my0 * worldSize + sH * (Nx * C.x + Ny * C.y + Nz * C.z)
  let tz := -(sV * (Ux * C.x + Uy * C.y + Uz * C.z)) + altitudeOffset * sV
  ⟨sH * Ex, sH * Ey, sH * Ez, tx,
   -(sH * Nx), -(sH * Ny), -(sH * Nz), ty,
   sV * Ux, sV * Uy, sV * Uz, tz,
   0, 0, 0, 1⟩

end WeldLayer

namespace GeoUtils

/-- Web-Mercator circumference constant from src/app/utils/geoUtils.ts. -/
def EARTH_CIRCUMFERENCE : ℝ := 40075016.686

/-- `HALF_EARTH` from src/app/utils/geoUtils.ts. -/
def HALF_EARTH : ℝ := EARTH_CIRCUMFERENCE / 2

/-- `lngLatToMercator` of src/app/utils/geoUtils.ts: longitude/latitude to
Web-Mercator metres (EPSG:3857 axes, origin at the equator/Greenwich). -/
def lngLatToMercator (lng lat : ℝ) : ℝ × ℝ :=
  ((lng / 180) * HALF_EARTH,
   Real.log (Real.tan ((90 + lat) * π / 360)) * (HALF_EARTH / π))

/-- `getMercatorScale` of src/app/utils/geoUtils.ts. -/
def getMercatorScale (lat : ℝ) : ℝ := 1 / Real.cos (lat * π / 180)

/-- `metersToMercatorUnits` of src/app/utils/geoUtils.ts. -/
def metersToMercatorUnits (meters lat : ℝ) : ℝ := meters * getMercatorScale lat

end GeoUtils

/-- The claim that every Web-Mercator helper computes the specification's
normalized formulas up to one common world-size scale factor, applied to the
`GeoUtils.lngLatToMercator` helper: some scale `s` makes both of its
components the `s`-scaled Spec formulas at every longitude/latitude. -/
def mercatorHelperIsScaledSpec : Prop :=
  ∃ s : ℝ, ∀ lng lat : ℝ,
    (GeoUtils.lngLatToMercator lng lat).1 = s * Spec.mercatorX lng ∧
    (GeoUtils.lngLatToMercator lng lat).2 = s * Spec.mercatorY lat

/-- Three.js material side modes. -/
inductive SideMode where
  | frontSide
  | backSide
  | doubleSide
  deriving DecidableEq

/-- The material fields the post-processors read or write.  The source
materials are duck-typed (`src.map ?? null`, `src.color ?? 0xffffff`,
`src.transparent ?? false`), so `map`, `color` and `transparent` are
optional; textures and colors are tracked by identifier. -/
structure Material where
  map : Option Nat
  color : Option Nat
  transparent : Option Bool
  side : SideMode
  depthWrite : Bool
  depthTest : Bool
  polygonOffset : Bool
  polygonOffsetFactor : Int
  polygonOffsetUnits : Int
  deriving DecidableEq

/-- A tile mesh geometry.  The welding variant passes geometries through the
external `mergeVertices` and `computeVertexNormals` operations; the embedding
tracks geometry identity and whether each of those two external operations
has been applied (their internal vertex arithmetic belongs to the external
Three.js utilities, not to this repository). -/
structure Geometry where
  gid : Nat
  welded : Bool
  normalsRecomputed : Bool
  deriving DecidableEq

mutual
/-- A Three.js scene-graph object as the post-processors see it: whether the
node is a mesh, its frustum-culling flag, optional material and geometry, and
its children.  `traverse` visits the node itself and then every descendant. -/
inductive Object3D where
  | mk (isMesh : Bool) (frustumCulled : Bool) (material : Option Material)
      (geometry : Option Geometry) (children : ObjectList)
/-- Children of an `Object3D`. -/
inductive ObjectList where
  | nil
  | cons (head : Object3D) (tail : ObjectList)
end

namespace SplitLayer

/-- The replacement `MeshBasicMaterial` built by the split variant's
`processLoadedScene`: map/color/transparent carried over with the source's
`??` defaults, front side only, depth write and test on; the remaining
fields keep the Three.js material defaults. -/
def meshBasicMaterial (src : Material) : Material :=
  { map := src.map
    color := some (src.color.getD 16777215)
    transparent := some (src.transparent.getD false)
    side := .frontSide
    depthWrite := true
    depthTest := true
    polygonOffset := false
    polygonOffsetFactor := 0
    polygonOffsetUnits := 0 }

mutual
/-- `processLoadedScene` of src/unnamed/part_002, as the traversal callback
applied to every node of the subtree: set `frustumCulled = false` on every
object; then, for meshes only, replace the material (skipped when the mesh
has no material). -/
def processLoadedScene : Object3D → Object3D
  | .mk isMesh _ mat geo cs =>
    let cs1 := processLoadedSceneChildren cs
    if isMesh = false then .mk isMesh false mat geo cs1
    else
      match mat with
      | none => .mk isMesh false none geo cs1
      | some src => .mk isMesh false (some (meshBasicMaterial src)) geo cs1
/-- The split variant's traversal continuing over a node's children. -/
def processLoadedSceneChildren : ObjectList → ObjectList
  | .nil => .nil
  | .cons h t => .cons (processLoadedScene h) (processLoadedSceneChildren t)
end

end SplitLayer

namespace WeldLayer

/-- `POLYGON_OFFSET_FACTOR` from src/app/utils/threeDTilesLayer.ts. -/
def POLYGON_OFFSET_FACTOR : Int := 1

/-- `POLYGON_OFFSET_UNITS` from src/app/utils/threeDTilesLayer.ts. -/
def POLYGON_OFFSET_UNITS : Int := 1

/-- `ENABLE_VERTEX_WELDING` from src/app/utils/threeDTilesLayer.ts. -/
def ENABLE_VERTEX_WELDING : Bool := true

/-- `WELD_TOLERANCE` from src/app/utils/threeDTilesLayer.ts. -/
def WELD_TOLERANCE : ℚ := 1 / 10000

/-- Modelled from the spec: the external `mergeVertices` utility of Three.js
(`BufferGeometryUtils`), which is not part of this repository.  It returns a
new geometry with coincident vertices within the tolerance merged; the
embedding records only that welding was applied to the geometry. -/
def mergeVertices (g : Geometry) (_tolerance : ℚ) : Geometry :=
  { g with welded := true }

/-- Modelled from the spec: the external Three.js
`BufferGeometry.computeVertexNormals`, which recomputes vertex normals in
place; the embedding records only that the recomputation was applied. -/
def computeVertexNormals (g : Geometry) : Geometry :=
  { g with normalsRecomputed := true }

/-- The replacement `MeshBasicMaterial` built by the welding variant's
`processLoadedScene`: like the split variant's but with polygon offset
enabled at factor/units 1. -/
def meshBasicMaterial (src : Material) : Material :=
  { map := src.map
    color := some (src.color.getD 16777215)
    transparent := some (src.transparent.getD false)
    side := .frontSide
    depthWrite := true
    depthTest := true
    polygonOffset := true
    polygonOffsetFactor := POLYGON_OFFSET_FACTOR
    polygonOffsetUnits := POLYGON_OFFSET_UNITS }

mutual
/-- `processLoadedScene` of src/app/utils/threeDTilesLayer.ts, as the
traversal callback applied to every node: non-meshes and meshes without
geometry are left untouched; meshes with geometry are welded (when
`ENABLE_VERTEX_WELDING`) and get their normals recomputed, and then their
material is replaced (skipped when the mesh has no material).  The
frustum-culling flag is never written by this variant. -/
def processLoadedScene : Object3D → Object3D
  | .mk isMesh fc mat geo cs =>
    let cs1 := processLoadedSceneChildren cs
    if isMesh = false then .mk isMesh fc mat geo cs1
    else
      match geo with
      | none => .mk isMesh fc mat none cs1
      | some g =>
        let g1 := if ENABLE_VERTEX_WELDING then mergeVertices g WELD_TOLERANCE else g
        let g2 := computeVertexNormals g1
        match mat with
        | none => .mk isMesh fc none (some g2) cs1
        | some src => .mk isMesh fc (some (meshBasicMaterial src)) (some g2) cs1
/-- The welding variant's traversal continuing over a node's children. -/
def processLoadedSceneChildren : ObjectList → ObjectList
  | .nil => .nil
  | .cons h t => .cons (processLoadedScene h) (processLoadedSceneChildren t)
end

end WeldLayer

mutual
/-- The frustum-culling flags of every object of a subtree, in traversal
order (the node itself first, then its descendants). -/
def frustumFlags : Object3D → List Bool
  | .mk _ fc _ _ cs => fc :: frustumFlagsChildren cs
/-- Frustum-culling flags collected over a child list. -/
def frustumFlagsChildren : ObjectList → List Bool
  | .nil => []
  | .cons h t => frustumFlags h ++ frustumFlagsChildren t
end

mutual
/-- The number of objects in a subtree (the node itself plus descendants). -/
def objectCount : Object3D → Nat
  | .mk _ _ _ _ cs => 1 + objectCountChildren cs
/-- Object count over a child list. -/
def objectCountChildren : ObjectList → Nat
  | .nil => 0
  | .cons h t => objectCount h + objectCountChildren t
end

/-- Modelled from the spec: the external streaming engine's screen-space
error metric, `SSE = tile.geometricError / (distance * sseDenominator)`.
The traversal engine is an external collaborator (the 3d-tiles-renderer
library); the formula is the one the specification and the source comments
document for it. -/
def screenSpaceError (geometricError distance sseDenominator : ℝ) : ℝ :=
  geometricError / (distance * sseDenominator)

namespace SplitLayer

/-- `SELECTION_HEIGHT_M` from src/unnamed/part_002. -/
def SELECTION_HEIGHT_M : ℝ := 500

/-- `SELECTION_FOV_DEG` from src/unnamed/part_002. -/
def SELECTION_FOV_DEG : ℝ := 90

/-- `RESOLUTION_MULTIPLIER` from src/unnamed/part_002. -/
def RESOLUTION_MULTIPLIER : ℝ := 4

/-- The LOD ("decoy") camera state built in `onAdd`: a perspective camera
with the configured field of view, aspect 1, near 1, far 1e9, positioned at
the anchor's ECEF position `SELECTION_HEIGHT_M` metres up and looking at the
anchor's ECEF position at altitude 0 (`lookAt`). -/
structure LodCamera where
  fov : ℝ
  aspect : ℝ
  near : ℝ
  far : ℝ
  position : Vec3
  lookTarget : Vec3

/-- The render camera's four per-frame matrices. -/
structure RenderCameraState where
  projectionMatrix : Mat4
  projectionMatrixInverse : Mat4
  matrixWorld : Mat4
  matrixWorldInverse : Mat4

/-- The state this layer holds in the external `TilesRenderer` streaming
engine: the traversal parameters set in `onAdd` and the virtual resolution
registered through `setResolution`.  `updateTicks` counts the per-frame
`update()` calls that advance the engine. -/
structure TilesEngineState where
  errorTarget : ℝ
  displayActiveTiles : Bool
  optimizedLoadStrategy : Bool
  loadSiblings : Bool
  resolutionW : ℝ
  resolutionH : ℝ
  updateTicks : Nat

/-- The constructor parameters of `ThreeDTilesLayer`: anchor longitude and
latitude and the vertical offset in metres. -/
structure LayerParams where
  lng0 : ℝ
  lat0 : ℝ
  altitudeOffset : ℝ

/-- The mutable fields of a `ThreeDTilesLayer` instance.  Every reference
the class stores as `T | null` is an `Option`; `repaintTimer` records
whether the repaint interval timer is running. -/
structure LayerState where
  params : LayerParams
  map : Option Unit
  renderer : Option Unit
  scene : Option Unit
  lodCamera : Option LodCamera
  renderCamera : Option RenderCameraState
  tilesRenderer : Option TilesEngineState
  dracoLoader : Option Unit
  repaintTimer : Bool

/-- What the host map hands the `render` callback each frame: the combined
projection matrix (`options.modelViewProjectionMatrix`), the current canvas
size, zoom and view center, the optional `transform.worldSize` override, and
whether the engine reports outstanding asynchronous work. -/
structure RenderInput where
  mvp : Mat4
  canvasW : ℝ
  canvasH : ℝ
  zoom : ℝ
  centerLng : ℝ
  centerLat : ℝ
  transformWorldSize : Option ℝ
  hasActiveWork : Bool

/-- The externally visible calls `render` makes on the graphics context,
streaming engine and renderer, in order. -/
inductive GLEffect where
  | setResolution (w h : ℝ)
  | tilesUpdate
  | enableDepthTest
  | depthFuncLEqual
  | depthMaskTrue
  | clearDepth
  | stateReset
  | rendererRender
  | bindPrevFramebuffer
  | disposeTilesRenderer
  | disposeDracoLoader

/-- `ThreeDTilesLayer.onAdd` of src/unnamed/part_002, as a state builder:
creates renderer, scene, the fixed LOD camera (500 m above the anchor,
looking at it), the render camera, and the streaming engine configured with
`errorTarget = 0`, `displayActiveTiles = true`,
`optimizedLoadStrategy = false`, `loadSiblings = true` and the virtual
resolution `canvas * RESOLUTION_MULTIPLIER`; it then seeds the repaint
loop. -/
def onAdd (p : LayerParams) (canvasW canvasH : ℝ) : LayerState :=
  { params := p
    map := some ()
    renderer := some ()
    scene := some ()
    lodCamera := some
      { fov := SELECTION_FOV_DEG
        aspect := 1
        near := 1
        far := 1e9
        position := lngLatToECEF p.lng0 p.lat0 SELECTION_HEIGHT_M
        lookTarget := lngLatToECEF p.lng0 p.lat0 0 }
    renderCamera := some
      { projectionMatrix := identityMat4
        projectionMatrixInverse := identityMat4
        matrixWorld := identityMat4
        matrixWorldInverse := identityMat4 }
    tilesRenderer := some
      { errorTarget := 0
        displayActiveTiles := true
        optimizedLoadStrategy := false
        loadSiblings := true
        resolutionW := canvasW * RESOLUTION_MULTIPLIER
        resolutionH := canvasH * RESOLUTION_MULTIPLIER
        updateTicks := 0 }
    dracoLoader := some ()
    repaintTimer := true }

/-- `ThreeDTilesLayer.render` of src/unnamed/part_002.  If any of the six
required references is absent the call returns immediately with the state
unchanged and no effects.  Otherwise it refreshes the engine's virtual
resolution from the canvas, rebuilds the ECEF-to-Mercator matrix from the
current world size, splits it camera-relatively (`subtractCameraXY` /
`matMul mvp (makeTranslation ...)`), installs the four render-camera
matrices, advances the engine, clears only the depth buffer, renders, and
restores GL state; the repaint loop is restarted when work remains. -/
def render (st : LayerState) (inp : RenderInput) : LayerState × List GLEffect :=
  match st.renderer, st.scene, st.map, st.lodCamera, st.renderCamera, st.tilesRenderer with
  | some _, some _, some _, some _, some _, some te =>
    let te1 := { te with
      resolutionW := inp.canvasW * RESOLUTION_MULTIPLIER
      resolutionH := inp.canvasH * RESOLUTION_MULTIPLIER }
    let worldSize := inp.transformWorldSize.getD (512 * (2 : ℝ) ^ inp.zoom)
    let ecefToMerc := buildEcefToMercatorMatrix st.params.lng0 st.params.lat0
      st.params.altitudeOffset worldSize
    let camMercX := ((inp.centerLng + 180) / 360) * worldSize
    let camMercY :=
      ((1 - Real.log (Real.tan (π / 4 + inp.centerLat * π / 360)) / π) / 2) * worldSize
    let ecefToMercRel := subtractCameraXY ecefToMerc camMercX camMercY
    let adjustedMVP := matMul inp.mvp (makeTranslation camMercX camMercY 0)
    let rc :=
      { projectionMatrix := adjustedMVP
        projectionMatrixInverse := invertMat4 adjustedMVP
        matrixWorld := invertMat4 ecefToMercRel
        matrixWorldInverse := ecefToMercRel }
    let te2 := { te1 with updateTicks := te1.updateTicks + 1 }
    let timer1 := if inp.hasActiveWork then true else st.repaintTimer
    let st1 :=
      { st with
        tilesRenderer := some te2
        renderCamera := some rc
        repaintTimer := timer1 }
    (st1,
     [.setResolution (inp.canvasW * RESOLUTION_MULTIPLIER) (inp.canvasH * RESOLUTION_MULTIPLIER),
      .tilesUpdate, .enableDepthTest, .depthFuncLEqual, .depthMaskTrue, .clearDepth,
      .stateReset, .rendererRender, .bindPrevFramebuffer, .stateReset])
  | _, _, _, _, _, _ => (st, [])

/-- `ThreeDTilesLayer.onRemove` of src/unnamed/part_002: stops the repaint
timer, disposes the streaming engine and loader, and nulls every stored
reference. -/
def onRemove (st : LayerState) : LayerState × List GLEffect :=
  ({ st with
      map := none
      renderer := none
      scene := none
      lodCamera := none
      renderCamera := none
      tilesRenderer := none
      dracoLoader := none
      repaintTimer := false },
   [.disposeTilesRenderer, .disposeDracoLoader])

/-- The early-return guard of `render`: at least one of the six required
references is absent. -/
def renderGuardFails (st : LayerState) : Prop :=
  st.renderer = none ∨ st.scene = none ∨ st.map = none ∨
  st.lodCamera = none ∨ st.renderCamera = none ∨ st.tilesRenderer = none

/-- A sequence of render invocations folded over a starting state. -/
def renderMany (st : LayerState) (inps : List RenderInput) : LayerState :=
  inps.foldl (fun s i => (render s i).1) st

end SplitLayer

/-- A layer state with every reference nulled, as left behind by teardown. -/
def emptyLayerState : SplitLayer.LayerState :=
  { params := ⟨119.41, -5.14, 0⟩
    map := none
    renderer := none
    scene := none
    lodCamera := none
    renderCamera := none
    tilesRenderer := none
    dracoLoader := none
    repaintTimer := false }

/-- A concrete frame input (zoom 16 over the Makassar anchor). -/
def sampleRenderInput : SplitLayer.RenderInput :=
  ⟨identityMat4, 100, 100, 16, 119.41, -5.14, some 33554432, false⟩

/-- A concrete source material for a loaded photogrammetry mesh. -/
def sampleMaterial : Material :=
  ⟨some 7, some 255, some false, .doubleSide, true, true, false, 0, 0⟩

/-- A concrete loaded tile scene: a single mesh with material and geometry,
frustum culling enabled (the Three.js default). -/
def sampleTileScene : Object3D :=
  .mk true true (some sampleMaterial) (some ⟨0, false, false⟩) .nil

-- ══════════════════════════════════════════════════════════════════════════
-- Helper lemmas
-- ══════════════════════════════════════════════════════════════════════════

/-- The translate-and-untranslate pair cancels: for any matrix M whose bottom
row is (0, 0, 0, 1), multiplying `P × translate(a, b, 0)` with M whose X/Y
translation entries were reduced by (a, b) reproduces `P × M` exactly. -/
theorem translate_pair_cancels (P M : Mat4) (a b : ℝ)
    (h41 : M.n41 = 0) (h42 : M.n42 = 0) (h43 : M.n43 = 0) (h44 : M.n44 = 1) :
    matMul (matMul P (makeTranslation a b 0)) (SplitLayer.subtractCameraXY M a b)
      = matMul P M := by
  simp only [matMul, makeTranslation, SplitLayer.subtractCameraXY]
  ext <;> dsimp only <;> simp only [h41, h42, h43, h44] <;> ring

/-- The split variant's ECEF-to-Mercator matrix has bottom row (0, 0, 0, 1). -/
theorem split_build_bottom_row (lng lat altitudeOffset worldSize : ℝ) :
    (SplitLayer.buildEcefToMercatorMatrix lng lat altitudeOffset worldSize).n41 = 0
    ∧ (SplitLayer.buildEcefToMercatorMatrix lng lat altitudeOffset worldSize).n42 = 0
    ∧ (SplitLayer.buildEcefToMercatorMatrix lng lat altitudeOffset worldSize).n43 = 0
    ∧ (SplitLayer.buildEcefToMercatorMatrix lng lat altitudeOffset worldSize).n44 = 1 :=
  ⟨rfl, rfl, rfl, rfl⟩

/-- `render` never writes the `lodCamera` field. -/
theorem render_preserves_lodCamera (st : SplitLayer.LayerState)
    (inp : SplitLayer.RenderInput) :
    ((SplitLayer.render st inp).1).lodCamera = st.lodCamera := by
  obtain ⟨p, m, r, sc, lc, rc, te, dl, rt⟩ := st
  rcases r with _ | r <;> rcases sc with _ | sc <;> rcases m with _ | m <;>
    rcases lc with _ | lc <;> rcases rc with _ | rc <;> rcases te with _ | te <;>
    simp [SplitLayer.render]

/-- Any sequence of render invocations leaves `lodCamera` unchanged. -/
theorem renderMany_preserves_lodCamera (st : SplitLayer.LayerState)
    (inps : List SplitLayer.RenderInput) :
    (SplitLayer.renderMany st inps).lodCamera = st.lodCamera := by
  induction inps generalizing st with
  | nil => rfl
  | cons i t ih =>
    simp only [SplitLayer.renderMany, List.foldl_cons] at *
    rw [ih, render_preserves_lodCamera]

mutual
/-- After the split variant's post-processing, every frustum flag in the
subtree is false. -/
theorem split_process_all_disabled :
    ∀ t, (frustumFlags (SplitLayer.processLoadedScene t)).all (fun b => !b) = true
  | .mk isMesh fc mat geo cs => by
    cases isMesh <;> rcases mat with _ | m <;>
      simp [SplitLayer.processLoadedScene, frustumFlags, split_process_all_disabled_children cs]
/-- Child-list form of `split_process_all_disabled`. -/
theorem split_process_all_disabled_children :
    ∀ l, (frustumFlagsChildren (SplitLayer.processLoadedSceneChildren l)).all (fun b => !b)
      = true
  | .nil => by simp [SplitLayer.processLoadedSceneChildren, frustumFlagsChildren]
  | .cons h t => by
    simp [SplitLayer.processLoadedSceneChildren, frustumFlagsChildren,
      split_process_all_disabled h, split_process_all_disabled_children t]
end

mutual
/-- The welding variant's post-processing never changes a frustum flag. -/
theorem weld_process_flags_preserved :
    ∀ t, frustumFlags (WeldLayer.processLoadedScene t) = frustumFlags t
  | .mk isMesh fc mat geo cs => by
    cases isMesh <;> rcases geo with _ | g <;> rcases mat with _ | m <;>
      simp [WeldLayer.processLoadedScene, frustumFlags, weld_process_flags_preserved_children cs]
/-- Child-list form of `weld_process_flags_preserved`. -/
theorem weld_process_flags_preserved_children :
    ∀ l, frustumFlagsChildren (WeldLayer.processLoadedSceneChildren l) = frustumFlagsChildren l
  | .nil => by simp [WeldLayer.processLoadedSceneChildren]
  | .cons h t => by
    simp [WeldLayer.processLoadedSceneChildren, frustumFlagsChildren,
      weld_process_flags_preserved h, weld_process_flags_preserved_children t]
end

mutual
/-- The split variant's post-processing visits and keeps every object. -/
theorem split_process_count :
    ∀ t, objectCount (SplitLayer.processLoadedScene t) = objectCount t
  | .mk isMesh fc mat geo cs => by
    cases isMesh <;> rcases mat with _ | m <;>
      simp [SplitLayer.processLoadedScene, objectCount, split_process_count_children cs]
/-- Child-list form of `split_process_count`. -/
theorem split_process_count_children :
    ∀ l, objectCountChildren (SplitLayer.processLoadedSceneChildren l) = objectCountChildren l
  | .nil => by simp [SplitLayer.processLoadedSceneChildren]
  | .cons h t => by
    simp [SplitLayer.processLoadedSceneChildren, objectCountChildren,
      split_process_count h, split_process_count_children t]
end

mutual
/-- The welding variant's post-processing visits and keeps every object. -/
theorem weld_process_count :
    ∀ t, objectCount (WeldLayer.processLoadedScene t) = objectCount t
  | .mk isMesh fc mat geo cs => by
    cases isMesh <;> rcases geo with _ | g <;> rcases mat with _ | m <;>
      simp [WeldLayer.processLoadedScene, objectCount, weld_process_count_children cs]
/-- Child-list form of `weld_process_count`. -/
theorem weld_process_count_children :
    ∀ l, objectCountChildren (WeldLayer.processLoadedSceneChildren l) = objectCountChildren l
  | .nil => by simp [WeldLayer.processLoadedSceneChildren]
  | .cons h t => by
    simp [WeldLayer.processLoadedSceneChildren, objectCountChildren,
      weld_process_count h, weld_process_count_children t]
end

-- ══════════════════════════════════════════════════════════════════════════
-- Claim theorems
-- ══════════════════════════════════════════════════════════════════════════

/-- C1: Anchor invariance of the ECEF-to-Mercator transform.  The split
variant (src/unnamed/part_002) maps the anchor's own ECEF position to
exactly (mercatorX(lng) x worldSize, mercatorY(lat) x worldSize,
altitudeOffset) for every anchor, offset and world size — hence within 0.01
in each component as claimed.  The welding variant
(src/app/utils/threeDTilesLayer.ts) instead outputs
Z = altitudeOffset x worldSize / EARTH_CIRCUMFERENCE at the anchor, and at
altitudeOffset = 100 m, worldSize = 512 x 2^16 (zoom 16) that Z misses the
claimed value 100 by more than 0.01 — the claim fails on that variant (the
repository's own unit tests and the split variant's PRIOR BUG note give the
claimed behaviour as the intended one). -/
theorem anchor_invariance_check :
    (∀ lng lat altitudeOffset worldSize : ℝ,
      applyToPoint (SplitLayer.buildEcefToMercatorMatrix lng lat altitudeOffset worldSize)
          (SplitLayer.lngLatToECEF lng lat 0)
        = ⟨Spec.mercatorX lng * worldSize, Spec.mercatorY lat * worldSize, altitudeOffset⟩)
    ∧ (∀ lng lat altitudeOffset worldSize : ℝ,
      (applyToPoint (WeldLayer.buildEcefToMercatorMatrix lng lat altitudeOffset worldSize)
          (WeldLayer.lngLatToECEF lng lat 0)).z
        = altitudeOffset * (worldSize / WeldLayer.EARTH_CIRCUMFERENCE))
    ∧ |(100 : ℝ) * (33554432 / WeldLayer.EARTH_CIRCUMFERENCE) - 100| > 0.01 := by
  refine ⟨?_, ?_, ?_⟩
  · intro lng lat altitudeOffset worldSize
    simp only [SplitLayer.buildEcefToMercatorMatrix, SplitLayer.lngLatToECEF, applyToPoint,
      Spec.mercatorX, Spec.mercatorY]
    ext <;> dsimp only <;> ring
  · intro lng lat altitudeOffset worldSize
    simp only [WeldLayer.buildEcefToMercatorMatrix, WeldLayer.lngLatToECEF, applyToPoint]
    ring
  · have h : (100 : ℝ) * (33554432 / WeldLayer.EARTH_CIRCUMFERENCE) - 100 < 0 := by
      rw [WeldLayer.EARTH_CIRCUMFERENCE]; norm_num
    rw [abs_of_neg h, WeldLayer.EARTH_CIRCUMFERENCE]
    norm_num

/-- C2: The vertical channel.  In the split variant the Z output is raw
metres: transforming the anchor at altitude `alt` versus altitude 0 yields a
Z-delta of exactly `alt` for every world size, and the entire Z row of the
matrix is independent of the world size, so the delta is identical at any
two zoom levels.  The welding variant's Z-delta is
`(worldSize / EARTH_CIRCUMFERENCE) x alt` instead: for a 100 m altitude step
it misses 100 by more than 0.5 at zoom 16, and differs between zoom 16 and
zoom 20 by far more than 0.01 — the claim fails on that variant. -/
theorem vertical_channel_check :
    (∀ lng lat altitudeOffset worldSize alt : ℝ,
      (applyToPoint (SplitLayer.buildEcefToMercatorMatrix lng lat altitudeOffset worldSize)
          (SplitLayer.lngLatToECEF lng lat alt)).z
        - (applyToPoint (SplitLayer.buildEcefToMercatorMatrix lng lat altitudeOffset worldSize)
          (SplitLayer.lngLatToECEF lng lat 0)).z = alt)
    ∧ (∀ lng lat altitudeOffset ws ws' : ℝ,
      (SplitLayer.buildEcefToMercatorMatrix lng lat altitudeOffset ws).n31
          = (SplitLayer.buildEcefToMercatorMatrix lng lat altitudeOffset ws').n31
        ∧ (SplitLayer.buildEcefToMercatorMatrix lng lat altitudeOffset ws).n32
          = (SplitLayer.buildEcefToMercatorMatrix lng lat altitudeOffset ws').n32
        ∧ (SplitLayer.buildEcefToMercatorMatrix lng lat altitudeOffset ws).n33
          = (SplitLayer.buildEcefToMercatorMatrix lng lat altitudeOffset ws').n33
        ∧ (SplitLayer.buildEcefToMercatorMatrix lng lat altitudeOffset ws).n34
          = (SplitLayer.buildEcefToMercatorMatrix lng lat altitudeOffset ws').n34)
    ∧ (∀ lng lat altitudeOffset worldSize alt : ℝ,
      (applyToPoint (WeldLayer.buildEcefToMercatorMatrix lng lat altitudeOffset worldSize)
          (WeldLayer.lngLatToECEF lng lat alt)).z
        - (applyToPoint (WeldLayer.buildEcefToMercatorMatrix lng lat altitudeOffset worldSize)
          (WeldLayer.lngLatToECEF lng lat 0)).z
        = (worldSize / WeldLayer.EARTH_CIRCUMFERENCE) * alt)
    ∧ |(33554432 / WeldLayer.EARTH_CIRCUMFERENCE) * 100 - 100| > 0.5
    ∧ |(33554432 / WeldLayer.EARTH_CIRCUMFERENCE) * 100
        - (536870912 / WeldLayer.EARTH_CIRCUMFERENCE) * 100| > 0.01 := by
  refine ⟨?_, ?_, ?_, ?_, ?_⟩
  · intro lng lat altitudeOffset worldSize alt
    simp only [SplitLayer.buildEcefToMercatorMatrix, SplitLayer.lngLatToECEF, applyToPoint]
    have h1 := Real.sin_sq_add_cos_sq (lng * π / 180)
    have h2 := Real.sin_sq_add_cos_sq (lat * π / 180)
    linear_combination alt * (Real.cos (lat * π / 180)) ^ 2 * h1 + alt * h2
  · intro lng lat altitudeOffset ws ws'
    exact ⟨rfl, rfl, rfl, rfl⟩
  · intro lng lat altitudeOffset worldSize alt
    simp only [WeldLayer.buildEcefToMercatorMatrix, WeldLayer.lngLatToECEF, applyToPoint]
    have h1 := Real.sin_sq_add_cos_sq (lng * π / 180)
    have h2 := Real.sin_sq_add_cos_sq (lat * π / 180)
    linear_combination
      (worldSize / WeldLayer.EARTH_CIRCUMFERENCE) * alt * (Real.cos (lat * π / 180)) ^ 2 * h1
        + (worldSize / WeldLayer.EARTH_CIRCUMFERENCE) * alt * h2
  · have h : (33554432 / WeldLayer.EARTH_CIRCUMFERENCE) * 100 - 100 < 0 := by
      rw [WeldLayer.EARTH_CIRCUMFERENCE]; norm_num
    rw [abs_of_neg h, WeldLayer.EARTH_CIRCUMFERENCE]
    norm_num
  · have h : (33554432 / WeldLayer.EARTH_CIRCUMFERENCE) * 100
        - (536870912 / WeldLayer.EARTH_CIRCUMFERENCE) * 100 < 0 := by
      rw [WeldLayer.EARTH_CIRCUMFERENCE]; norm_num
    rw [abs_of_neg h, WeldLayer.EARTH_CIRCUMFERENCE]
    norm_num

/-- C3: Split-matrix algebraic identity.  Over exact real arithmetic,
`(P x translate(camMercX, camMercY, 0)) x relativeModel` equals
`P x EcefToMercator` for every host projection matrix P, anchor, offset,
world size and camera Mercator position; and in every frame rendered from an
attached layer, the product of the installed `projectionMatrix` and
`matrixWorldInverse` equals the host combined projection times the
ECEF-to-Mercator matrix of that frame's world size. -/
theorem split_matrix_algebraic_identity :
    (∀ (P : Mat4) (lng lat altitudeOffset worldSize camMercX camMercY : ℝ),
      matMul (matMul P (makeTranslation camMercX camMercY 0))
          (SplitLayer.subtractCameraXY
            (SplitLayer.buildEcefToMercatorMatrix lng lat altitudeOffset worldSize)
            camMercX camMercY)
        = matMul P (SplitLayer.buildEcefToMercatorMatrix lng lat altitudeOffset worldSize))
    ∧ (∀ (p : SplitLayer.LayerParams) (w h : ℝ) (inp : SplitLayer.RenderInput),
      (((SplitLayer.render (SplitLayer.onAdd p w h) inp).1).renderCamera).map
          (fun rc => matMul rc.projectionMatrix rc.matrixWorldInverse)
        = some (matMul inp.mvp
            (SplitLayer.buildEcefToMercatorMatrix p.lng0 p.lat0 p.altitudeOffset
              (inp.transformWorldSize.getD (512 * (2 : ℝ) ^ inp.zoom))))) := by
  have key : ∀ (P : Mat4) (lng lat altitudeOffset worldSize camMercX camMercY : ℝ),
      matMul (matMul P (makeTranslation camMercX camMercY 0))
          (SplitLayer.subtractCameraXY
            (SplitLayer.buildEcefToMercatorMatrix lng lat altitudeOffset worldSize)
            camMercX camMercY)
        = matMul P (SplitLayer.buildEcefToMercatorMatrix lng lat altitudeOffset worldSize) := by
    intro P lng lat altitudeOffset worldSize a b
    obtain ⟨h41, h42, h43, h44⟩ := split_build_bottom_row lng lat altitudeOffset worldSize
    exact translate_pair_cancels P _ a b h41 h42 h43 h44
  refine ⟨key, ?_⟩
  intro p w h inp
  simp only [SplitLayer.render, SplitLayer.onAdd, Option.map_some']
  exact congrArg some (key inp.mvp p.lng0 p.lat0 p.altitudeOffset _ _ _)

/-- C5 counterexample: the geoUtils helper `lngLatToMercator` is not the
specification's normalized Mercator formulas scaled by any common world
size.  At (0, 0) it returns y = 0 while the scaled formula returns s/2,
forcing s = 0; at (90, 0) its x is a quarter of the Earth circumference,
which is nonzero — contradiction. -/
theorem geoutils_mercator_not_scaled_spec : ¬ mercatorHelperIsScaledSpec := by
  rintro ⟨s, h⟩
  have h00 := h 0 0
  have h90 := h 90 0
  have hy0 : (GeoUtils.lngLatToMercator 0 0).2 = 0 := by
    simp only [GeoUtils.lngLatToMercator]
    have harg : ((90 : ℝ) + 0) * π / 360 = π / 4 := by ring
    rw [harg, Real.tan_pi_div_four, Real.log_one]
    ring
  have hmy : Spec.mercatorY 0 = 1 / 2 := by
    simp only [Spec.mercatorY]
    have harg : π / 4 + (0 : ℝ) * π / 360 = π / 4 := by ring
    rw [harg, Real.tan_pi_div_four, Real.log_one]
    ring
  have hs : s = 0 := by
    have hy := h00.2
    rw [hy0, hmy] at hy
    linarith
  have hx : (GeoUtils.lngLatToMercator 90 0).1 = s * Spec.mercatorX 90 := h90.1
  rw [hs] at hx
  simp only [GeoUtils.lngLatToMercator, GeoUtils.HALF_EARTH, GeoUtils.EARTH_CIRCUMFERENCE,
    Spec.mercatorX] at hx
  norm_num at hx

/-- C5 (amended): the two layer variants' `lngLatToECEF` implementations are
extensionally equal, and both layer variants place the anchor at exactly the
specification's worldSize-scaled mercatorX/mercatorY; the geoUtils helper
`lngLatToMercator`, however, computes the EPSG:3857 metre coordinates —
an affine, Y-flipped image `x = C * (mercatorX - 1/2)`,
`y = -C * (mercatorY - 1/2)` of the specification formulas (with C the Earth
circumference), not a pure worldSize scaling. -/
theorem geodetic_math_reuse_amended :
    (∀ lng lat alt : ℝ,
      SplitLayer.lngLatToECEF lng lat alt = WeldLayer.lngLatToECEF lng lat alt)
    ∧ (∀ lng lat altitudeOffset worldSize : ℝ,
      ((applyToPoint (SplitLayer.buildEcefToMercatorMatrix lng lat altitudeOffset worldSize)
          (SplitLayer.lngLatToECEF lng lat 0)).x = Spec.mercatorX lng * worldSize
        ∧ (applyToPoint (SplitLayer.buildEcefToMercatorMatrix lng lat altitudeOffset worldSize)
          (SplitLayer.lngLatToECEF lng lat 0)).y = Spec.mercatorY lat * worldSize)
      ∧ ((applyToPoint (WeldLayer.buildEcefToMercatorMatrix lng lat altitudeOffset worldSize)
          (WeldLayer.lngLatToECEF lng lat 0)).x = Spec.mercatorX lng * worldSize
        ∧ (applyToPoint (WeldLayer.buildEcefToMercatorMatrix lng lat altitudeOffset worldSize)
          (WeldLayer.lngLatToECEF lng lat 0)).y = Spec.mercatorY lat * worldSize))
    ∧ (∀ lng lat : ℝ,
      (GeoUtils.lngLatToMercator lng lat).1
          = GeoUtils.EARTH_CIRCUMFERENCE * (Spec.mercatorX lng - 1 / 2)
        ∧ (GeoUtils.lngLatToMercator lng lat).2
          = -GeoUtils.EARTH_CIRCUMFERENCE * (Spec.mercatorY lat - 1 / 2)) := by
  refine ⟨?_, ?_, ?_⟩
  · intro lng lat alt
    simp only [SplitLayer.lngLatToECEF, WeldLayer.lngLatToECEF, SplitLayer.WGS84_A,
      WeldLayer.WGS84_A, SplitLayer.WGS84_E2, WeldLayer.WGS84_E2]
  · intro lng lat altitudeOffset worldSize
    refine ⟨⟨?_, ?_⟩, ?_, ?_⟩ <;>
      simp only [SplitLayer.buildEcefToMercatorMatrix, SplitLayer.lngLatToECEF,
        WeldLayer.buildEcefToMercatorMatrix, WeldLayer.lngLatToECEF, applyToPoint,
        Spec.mercatorX, Spec.mercatorY] <;>
      ring
  · intro lng lat
    constructor
    · simp only [GeoUtils.lngLatToMercator, GeoUtils.HALF_EARTH, Spec.mercatorX]
      ring
    · simp only [GeoUtils.lngLatToMercator, GeoUtils.HALF_EARTH, Spec.mercatorY]
      have harg : (90 + lat) * π / 360 = π / 4 + lat * π / 360 := by ring
      rw [harg]
      ring

/-- C6: LOD refine-threshold saturation.  `onAdd` configures the streaming
engine with `errorTarget = 0`; and for every nonnegative geometric error,
positive camera distance and positive resolution-dependent denominator, the
screen-space error `geometricError / (distance * denominator)` is at most
the threshold 0 exactly when the geometric error is 0, and is strictly
positive whenever the geometric error is — so every non-leaf tile is
refined. -/
theorem lod_refine_threshold_saturation :
    (∀ (p : SplitLayer.LayerParams) (w h : ℝ),
      ((SplitLayer.onAdd p w h).tilesRenderer).map SplitLayer.TilesEngineState.errorTarget
        = some 0)
    ∧ (∀ geometricError distance den : ℝ,
        0 ≤ geometricError → 0 < distance → 0 < den →
        ((screenSpaceError geometricError distance den ≤ 0 ↔ geometricError = 0)
          ∧ (0 < geometricError → 0 < screenSpaceError geometricError distance den))) := by
  constructor
  · intro p w h
    rfl
  · intro gE d den hg hd hden
    have hpos : 0 < d * den := mul_pos hd hden
    constructor
    · constructor
      · intro hle
        have hge : 0 ≤ screenSpaceError gE d den := div_nonneg hg (le_of_lt hpos)
        have hzero : screenSpaceError gE d den = 0 := le_antisymm hle hge
        have := (div_eq_zero_iff).mp hzero
        rcases this with h | h
        · exact h
        · exact absurd h (ne_of_gt hpos)
      · intro hzero
        simp [screenSpaceError, hzero]
    · intro hgpos
      exact div_pos hgpos hpos

/-- C6 witness: the saturation theorem applied at geometric error 0.1 m,
distance 500 m, denominator 2 — the screen-space error does not satisfy the
stop condition. -/
theorem lod_refine_threshold_saturation_witness :
    (0 : ℝ) ≤ 1 / 10 ∧ (0 : ℝ) < 500 ∧ (0 : ℝ) < 2
    ∧ ¬ screenSpaceError (1 / 10) 500 2 ≤ 0 := by
  have h := lod_refine_threshold_saturation.2 (1 / 10) 500 2
    (by norm_num) (by norm_num) (by norm_num)
  refine ⟨by norm_num, by norm_num, by norm_num, ?_⟩
  intro hle
  have := h.1.mp hle
  norm_num at this

/-- C7 counterexample: the virtual resolution, which the claim counts as part
of the LOD camera's never-mutated state, is rewritten by `render` from the
current canvas size.  Attaching with a 100 x 100 canvas registers 400 x 400;
a subsequent render with a 200 x 100 canvas changes it to 800 x 400. -/
theorem lod_camera_virtual_resolution_mutates :
    ((SplitLayer.onAdd ⟨119.41, -5.14, 0⟩ 100 100).tilesRenderer).map
        (fun te => (te.resolutionW, te.resolutionH)) = some ((400 : ℝ), (400 : ℝ))
    ∧ (((SplitLayer.render (SplitLayer.onAdd ⟨119.41, -5.14, 0⟩ 100 100)
          ⟨identityMat4, 200, 100, 16, 119.41, -5.14, some 33554432, false⟩).1).tilesRenderer).map
        (fun te => (te.resolutionW, te.resolutionH)) = some ((800 : ℝ), (400 : ℝ))
    ∧ ((800 : ℝ), (400 : ℝ)) ≠ ((400 : ℝ), (400 : ℝ)) := by
  refine ⟨?_, ?_, ?_⟩
  · simp only [SplitLayer.onAdd, Option.map_some', SplitLayer.RESOLUTION_MULTIPLIER]
    norm_num
  · simp only [SplitLayer.render, SplitLayer.onAdd, Option.map_some',
      SplitLayer.RESOLUTION_MULTIPLIER]
    norm_num
  · intro hcontra
    have := congrArg Prod.fst hcontra
    norm_num at this

/-- C7 (amended): the LOD camera object itself — position, orientation
target, field of view and frustum parameters — is created once in `onAdd`
and never mutated: every `render` (and any sequence of renders) leaves the
stored camera identical to its attach-time value.  The virtual resolution
registered with the streaming engine for that camera, however, is re-derived
by every render from the current canvas size times the multiplier, so it
changes exactly when the canvas size does. -/
theorem lod_camera_immutable_amended :
    (∀ (st : SplitLayer.LayerState) (inp : SplitLayer.RenderInput),
      ((SplitLayer.render st inp).1).lodCamera = st.lodCamera)
    ∧ (∀ (p : SplitLayer.LayerParams) (w h : ℝ),
      (SplitLayer.onAdd p w h).lodCamera = some
        { fov := SplitLayer.SELECTION_FOV_DEG
          aspect := 1
          near := 1
          far := 1e9
          position := SplitLayer.lngLatToECEF p.lng0 p.lat0 SplitLayer.SELECTION_HEIGHT_M
          lookTarget := SplitLayer.lngLatToECEF p.lng0 p.lat0 0 })
    ∧ (∀ (p : SplitLayer.LayerParams) (w h : ℝ) (inps : List SplitLayer.RenderInput),
      (SplitLayer.renderMany (SplitLayer.onAdd p w h) inps).lodCamera
        = (SplitLayer.onAdd p w h).lodCamera)
    ∧ (∀ (p : SplitLayer.LayerParams) (w h : ℝ) (inp : SplitLayer.RenderInput),
      (((SplitLayer.render (SplitLayer.onAdd p w h) inp).1).tilesRenderer).map
        (fun te => (te.resolutionW, te.resolutionH))
        = some (inp.canvasW * SplitLayer.RESOLUTION_MULTIPLIER,
            inp.canvasH * SplitLayer.RESOLUTION_MULTIPLIER)) := by
  refine ⟨render_preserves_lodCamera, ?_, ?_, ?_⟩
  · intro p w h
    rfl
  · intro p w h inps
    exact renderMany_preserves_lodCamera _ inps
  · intro p w h inp
    simp only [SplitLayer.render, SplitLayer.onAdd, Option.map_some']

/-- C8 counterexample: the welding variant's post-processor leaves the
frustum-culling flag of a loaded mesh untouched.  A single-mesh tile scene
with `frustumCulled = true` (the Three.js default) still has the flag set
after processing, so not every object ends with the flag disabled. -/
theorem weld_postprocessor_keeps_frustum_culling :
    frustumFlags (WeldLayer.processLoadedScene sampleTileScene) = [true]
    ∧ (frustumFlags (WeldLayer.processLoadedScene sampleTileScene)).all (fun b => !b)
      = false := by
  exact ⟨rfl, rfl⟩

/-- C8 (amended): the split variant's post-processor sets the
frustum-culling flag of every object (mesh or group) of the subtree to
false; the welding variant's post-processor never writes the flag, leaving
every object's flag exactly as it was. -/
theorem frustum_culling_postprocessor_amended :
    (∀ t : Object3D,
      (frustumFlags (SplitLayer.processLoadedScene t)).all (fun b => !b) = true)
    ∧ (∀ t : Object3D,
      frustumFlags (WeldLayer.processLoadedScene t) = frustumFlags t) :=
  ⟨split_process_all_disabled, weld_process_flags_preserved⟩

/-- C9: Render with incomplete state is a silent no-op.  Whenever any of the
six required references (renderer, scene, map, LOD camera, render camera,
streaming engine) is absent, `render` returns the state unchanged with no
effects; in particular rendering immediately after `onRemove` — which nulls
all of them — is such a no-op. -/
theorem render_incomplete_silent_noop :
    (∀ (st : SplitLayer.LayerState) (inp : SplitLayer.RenderInput),
      SplitLayer.renderGuardFails st → SplitLayer.render st inp = (st, []))
    ∧ (∀ (st : SplitLayer.LayerState) (inp : SplitLayer.RenderInput),
      SplitLayer.render (SplitLayer.onRemove st).1 inp = ((SplitLayer.onRemove st).1, [])) := by
  constructor
  · intro st inp hguard
    obtain ⟨p, m, r, sc, lc, rc, te, dl, rt⟩ := st
    rcases r with _ | r <;> rcases sc with _ | sc <;> rcases m with _ | m <;>
      rcases lc with _ | lc <;> rcases rc with _ | rc <;> rcases te with _ | te <;>
      simp_all [SplitLayer.render, SplitLayer.renderGuardFails]
  · intro st inp
    simp [SplitLayer.render, SplitLayer.onRemove]

/-- C9 witness: the no-op theorem applied to the all-null state with a
concrete frame input. -/
theorem render_incomplete_silent_noop_witness :
    SplitLayer.renderGuardFails emptyLayerState
    ∧ SplitLayer.render emptyLayerState sampleRenderInput = (emptyLayerState, []) :=
  ⟨Or.inl rfl,
   render_incomplete_silent_noop.1 emptyLayerState sampleRenderInput (Or.inl rfl)⟩

/-- C10: a mesh node with no material.  In the split variant the callback
still disables frustum culling and leaves the absent material absent; in the
welding variant the geometry is still welded and its normals recomputed
while the absent material stays absent; and in both variants processing
continues over the rest of the scene graph — every object of the subtree is
preserved (same object count, node for node). -/
theorem postprocessor_missing_material_check :
    (∀ (fc : Bool) (geo : Option Geometry) (cs : ObjectList),
      SplitLayer.processLoadedScene (.mk true fc none geo cs)
        = .mk true false none geo (SplitLayer.processLoadedSceneChildren cs))
    ∧ (∀ (fc : Bool) (g : Geometry) (cs : ObjectList),
      WeldLayer.processLoadedScene (.mk true fc none (some g) cs)
        = .mk true fc none
            (some (WeldLayer.computeVertexNormals
              (WeldLayer.mergeVertices g WeldLayer.WELD_TOLERANCE)))
            (WeldLayer.processLoadedSceneChildren cs))
    ∧ (∀ t : Object3D, objectCount (SplitLayer.processLoadedScene t) = objectCount t)
    ∧ (∀ t : Object3D, objectCount (WeldLayer.processLoadedScene t) = objectCount t) := by
  refine ⟨?_, ?_, split_process_count, weld_process_count⟩
  · intro fc geo cs
    simp [SplitLayer.processLoadedScene]
  · intro fc g cs
    simp [WeldLayer.processLoadedScene, WeldLayer.ENABLE_VERTEX_WELDING]

end ThreeDTiles
